import Mathlib

/-!
Verification development for the UK Cinema Finder application
(single source file `cinema_new.py`).

The program loads a table of cinema locations, geocodes a user-supplied
postcode through the postcodes.io HTTP API, computes haversine distances
from the geocoded point to every cinema, filters by a maximum radius,
sorts ascending by distance, truncates to a requested count and rounds
the displayed distances to two decimal places.

Modelling conventions:
* Python floats are modelled as real numbers `ℝ`.
* `pandas` data frames are modelled as Lean lists of records; the
  `latitude`/`longitude` columns after the coercing `pd.to_numeric`
  are modelled as `Option ℝ` (`none` models `NaN`, i.e. a missing or
  non-numeric cell).
* The HTTP layer is modelled as an oracle `String → NetResponse` mapping a
  request URL to a response; the JSON body is modelled already parsed into
  the shape documented for the API: an integer `status` field and a
  `result` payload carrying `latitude` and `longitude`, either of which
  may be missing or null.
* `DataFrame.sort_values("distance_km")` is modelled with `List.mergeSort`
  on the distance component.  The source call uses the pandas default
  `kind='quicksort'` (numpy introsort), which is documented as *not* stable;
  the merge sort here therefore fixes one particular tie order, and only
  tie-order-insensitive consequences are derived from it.
* `DataFrame.head(n)` is modelled with pandas' documented semantics for all
  integer arguments: for `n ≥ 0` the first `n` rows, for `n < 0` all rows
  except the last `|n|` ones (Python slice `[:n]`).
* `Series.round(2)` is modelled as rounding to an integer number of
  hundredths.  numpy resolves exact halves to the nearest even value while
  `round` here resolves them upwards; none of the properties proved below
  depend on the behaviour at exact half-hundredths, only on the placement
  of the rounding step and on its monotonicity.
-/

namespace CinemaFinder

/-- Earth radius used by the source (`EARTH_RADIUS_KM = 6371.0`). -/
def EARTH_RADIUS_KM : ℝ := 6371.0

/-- Endpoint template of the source constant `POSTCODE_API`, without its
trailing placeholder, which is modelled by string append in `postcodeUrl`. -/
def POSTCODE_API : String := "https://api.postcodes.io/postcodes/"

/-- Model of `POSTCODE_API.format(s)`. -/
def postcodeUrl (s : String) : String := POSTCODE_API ++ s

/-- Model of Python `math.radians`: degrees to radians. -/
noncomputable def radians (x : ℝ) : ℝ := x * (Real.pi / 180)

/-- Model of Python `math.atan2 y x` on real numbers (quadrant-aware
arctangent; `atan2 0 0 = 0` as for `math.atan2(+0.0, +0.0)`). -/
noncomputable def atan2 (y x : ℝ) : ℝ :=
  if 0 < x then Real.arctan (y / x)
  else if x < 0 then
    if 0 ≤ y then Real.arctan (y / x) + Real.pi else Real.arctan (y / x) - Real.pi
  else
    if 0 < y then Real.pi / 2 else if y < 0 then -(Real.pi / 2) else 0

/-- Model of `haversine_km(lat1, lon1, lat2, lon2)` from the source:
great-circle distance on a sphere of radius `EARTH_RADIUS_KM`. -/
noncomputable def haversine_km (lat1 lon1 lat2 lon2 : ℝ) : ℝ :=
  let rlat1 := radians lat1
  let rlon1 := radians lon1
  let rlat2 := radians lat2
  let rlon2 := radians lon2
  let dlat := rlat2 - rlat1
  let dlon := rlon2 - rlon1
  let a := Real.sin (dlat / 2) ^ 2 +
    Real.cos rlat1 * Real.cos rlat2 * Real.sin (dlon / 2) ^ 2
  let c := 2 * atan2 (Real.sqrt a) (Real.sqrt (1 - a))
  EARTH_RADIUS_KM * c

/-- A cleaned cinema record: one row of the data frame returned by
`load_data`, with the six retained columns. -/
structure CinemaRecord where
  name : String
  city : String
  brand : String
  operator : String
  latitude : ℝ
  longitude : ℝ

/-- A raw row of the input file restricted to the six used columns, after
`pd.to_numeric(..., errors="coerce")` on the two coordinate columns:
`none` models `NaN`, that is a missing or non-numeric cell. -/
structure RawRow where
  name : String
  city : String
  brand : String
  operator : String
  latitude : Option ℝ
  longitude : Option ℝ

/-- Model of `load_data`: keep the six columns, coerce coordinates to
numeric (already reflected in the `Option` typing of `RawRow`) and drop
every row whose latitude or longitude is absent
(`df.dropna(subset=["latitude", "longitude"])`).  The function is total:
defective rows are silently removed, never an error. -/
def load_data (rows : List RawRow) : List CinemaRecord :=
  rows.filterMap fun r =>
    match r.latitude, r.longitude with
    | some la, some lo => some ⟨r.name, r.city, r.brand, r.operator, la, lo⟩
    | _, _ => none

/-- Characters stripped by Python `str.strip()` with no argument
(ASCII whitespace; the source strings are ASCII postcodes). -/
def pyIsSpace (c : Char) : Bool :=
  c == ' ' || c == '\t' || c == '\n' || c == '\x0d' || c == '\x0b' || c == '\x0c'

/-- Model of Python `str.strip()`: remove leading and trailing whitespace. -/
def pyStrip (l : List Char) : List Char :=
  ((l.dropWhile pyIsSpace).reverse.dropWhile pyIsSpace).reverse

/-- Model of Python `str.upper()` (ASCII case mapping, which agrees with
Python on the ASCII postcode alphabet). -/
def pyUpper (l : List Char) : List Char := l.map Char.toUpper

/-- Model of Python `str.replace(" ", "")`: remove every space character. -/
def pyRemoveSpaces (l : List Char) : List Char := l.filter fun c => c != ' '

/-- Model of the normalization `postcode.strip().upper().replace(" ", "")`
performed by `geocode_postcode`. -/
def cleanedPostcode (postcode : String) : String :=
  ⟨pyRemoveSpaces (pyUpper (pyStrip postcode.data))⟩

/-- Lookup URL built by `geocode_postcode` for a given raw postcode. -/
def lookupUrl (postcode : String) : String :=
  postcodeUrl (cleanedPostcode postcode)

/-- The `result` object of a successful postcodes.io response, parsed per
the documented API shape, with coordinates as floats. -/
structure GeoResult where
  latitude : ℝ
  longitude : ℝ

/-- An HTTP response from the postcode API as consumed by the source:
`status_code` is the transport status, `jsonStatus` models
`data.get("status")` (`none` when the field is missing) and `jsonResult`
models `data.get("result")` (`none` when missing or JSON `null`). -/
structure NetResponse where
  status_code : ℤ
  jsonStatus : Option ℤ
  jsonResult : Option GeoResult

/-- Model of `geocode_postcode`.  The network is an oracle
`net : String → NetResponse` standing for `requests.get`; the function
consults it only on the branch where the source performs its single
HTTP call.  Return value is the source's triple
`(latitude, longitude, error_message)`. -/
def geocode_postcode (postcode : String) (net : String → NetResponse) :
    Option ℝ × Option ℝ × Option String :=
  let cleaned := cleanedPostcode postcode
  if cleaned = "" then (none, none, some "Please enter a postcode.")
  else
    let r := net (postcodeUrl cleaned)
    if r.status_code ≠ 200 then (none, none, some "Postcode lookup failed. Try again.")
    else
      match r.jsonStatus, r.jsonResult with
      | some 200, some res => (some res.latitude, some res.longitude, none)
      | _, _ => (none, none, some "Invalid postcode. Please try a valid UK postcode.")

/-- Model of line 77-80 of the source: `work["distance_km"] = work.apply(...)`,
pairing every row with its haversine distance from the user's point. -/
noncomputable def withDistances (user_lat user_lon : ℝ) (df : List CinemaRecord) :
    List (CinemaRecord × ℝ) :=
  df.map fun row => (row, haversine_km user_lat user_lon row.latitude row.longitude)

/-- Model of the filter `work[work["distance_km"] <= max_km]` (inclusive
boundary). -/
noncomputable def retained (user_lat user_lon : ℝ) (df : List CinemaRecord)
    (max_km : ℝ) : List (CinemaRecord × ℝ) :=
  (withDistances user_lat user_lon df).filter fun p => decide (p.2 ≤ max_km)

/-- Boolean comparison on the distance component, the key used by
`sort_values("distance_km")`. -/
noncomputable def distLE (p q : CinemaRecord × ℝ) : Bool := decide (p.2 ≤ q.2)

/-- Model of `.sort_values("distance_km")`: sort the retained rows by
ascending distance.  See the module docstring for the tie-order caveat:
the source's pandas default `kind='quicksort'` is not a stable sort, so
this merge sort fixes an arbitrary tie order and only tie-order-insensitive
facts are proved about it. -/
noncomputable def sortedRetained (user_lat user_lon : ℝ) (df : List CinemaRecord)
    (max_km : ℝ) : List (CinemaRecord × ℝ) :=
  (retained user_lat user_lon df max_km).mergeSort distLE

/-- Model of pandas `DataFrame.head(n)` for an arbitrary integer argument:
the first `n` rows when `n ≥ 0`, and all rows but the last `|n|` ones when
`n < 0` (the Python slice `[:n]`). -/
def pandasHead (n : ℤ) (l : List α) : List α :=
  if 0 ≤ n then l.take n.toNat else l.take (l.length - (-n).toNat)

/-- The ranking pipeline of line 82 of the source
(filter, sort, `head(n)`), before the presentation rounding of line 83. -/
noncomputable def rankUnrounded (user_lat user_lon : ℝ) (df : List CinemaRecord)
    (max_km : ℝ) (n : ℤ) : List (CinemaRecord × ℝ) :=
  pandasHead n (sortedRetained user_lat user_lon df max_km)

/-- Model of `Series.round(2)` on one value: round to a whole number of
hundredths (see the module docstring for the half-way caveat). -/
noncomputable def round2 (x : ℝ) : ℝ := (round (x * 100) : ℤ) / 100

/-- Full model of lines 82-83 of the source: filter by radius, sort by
distance, truncate with `head(n)`, then round the displayed distance. -/
noncomputable def rank (user_lat user_lon : ℝ) (df : List CinemaRecord)
    (max_km : ℝ) (n : ℤ) : List (CinemaRecord × ℝ) :=
  (rankUnrounded user_lat user_lon df max_km n).map fun p => (p.1, round2 p.2)

/-- A concrete record used to instantiate the theorems below. -/
def sampleCinema : CinemaRecord :=
  ⟨"Electric Cinema", "London", "Electric", "Electric Shepherds Bush Ltd", 0, 0⟩

/-- A second concrete record at the same location. -/
def sampleCinema2 : CinemaRecord :=
  ⟨"Genesis", "London", "Genesis", "Genesis Cinema Ltd", 0, 0⟩

/-- A network oracle that answers every request with a successful lookup. -/
def okNet : String → NetResponse := fun _ => ⟨200, some 200, some ⟨51, -1⟩⟩

/-- A network oracle that answers every request with HTTP 404. -/
def notFoundNet : String → NetResponse := fun _ => ⟨404, some 404, none⟩

/-- A network oracle that answers HTTP 200 with payload status 200 and a
null result. -/
def nullResultNet : String → NetResponse := fun _ => ⟨200, some 200, none⟩

/-! ## Helper lemmas -/

/-- The haversine distance from a point to itself is zero. -/
theorem haversine_self (lat lon : ℝ) : haversine_km lat lon lat lon = 0 := by
  simp [haversine_km, atan2, sub_self]

/-- The haversine distance is symmetric in its two points. -/
theorem haversine_comm (lat1 lon1 lat2 lon2 : ℝ) :
    haversine_km lat1 lon1 lat2 lon2 = haversine_km lat2 lon2 lat1 lon1 := by
  simp only [haversine_km]
  have k : ∀ u v : ℝ, Real.sin ((u - v) / 2) ^ 2 = Real.sin ((v - u) / 2) ^ 2 := by
    intro u v
    rw [show (u - v) / 2 = -((v - u) / 2) by ring, Real.sin_neg]
    ring
  rw [k (radians lat2) (radians lat1), k (radians lon2) (radians lon1),
    mul_comm (Real.cos (radians lat1)) (Real.cos (radians lat2))]

/-- The sort key is transitive. -/
theorem distLE_trans : ∀ a b c : CinemaRecord × ℝ, distLE a b → distLE b c → distLE a c := by
  intro a b c hab hbc
  simp only [distLE, decide_eq_true_eq] at hab hbc ⊢
  exact le_trans hab hbc

/-- The sort key is total. -/
theorem distLE_total : ∀ a b : CinemaRecord × ℝ, distLE a b || distLE b a := by
  intro a b
  simp only [distLE]
  rcases le_total a.2 b.2 with h | h <;> simp [h]

/-- Sorting permutes the retained rows. -/
theorem sortedRetained_perm (user_lat user_lon max_km : ℝ) (df : List CinemaRecord) :
    (sortedRetained user_lat user_lon df max_km).Perm (retained user_lat user_lon df max_km) :=
  List.mergeSort_perm _ _

/-- The sorted retained rows are pairwise nondecreasing in distance. -/
theorem sortedRetained_pairwise (user_lat user_lon max_km : ℝ) (df : List CinemaRecord) :
    List.Pairwise (fun p q : CinemaRecord × ℝ => p.2 ≤ q.2)
      (sortedRetained user_lat user_lon df max_km) := by
  have h := List.sorted_mergeSort distLE_trans distLE_total
    (retained user_lat user_lon df max_km)
  exact h.imp fun hb => by simpa [distLE] using hb

/-- Sorting preserves the number of retained rows. -/
theorem length_sortedRetained (user_lat user_lon max_km : ℝ) (df : List CinemaRecord) :
    (sortedRetained user_lat user_lon df max_km).length
      = (retained user_lat user_lon df max_km).length :=
  List.length_mergeSort _

/-- Characterization of the retained rows: exactly the dataset rows within
`max_km`, paired with their haversine distance. -/
theorem mem_retained {user_lat user_lon max_km : ℝ} {df : List CinemaRecord}
    {p : CinemaRecord × ℝ} :
    p ∈ retained user_lat user_lon df max_km
      ↔ p.1 ∈ df ∧ p.2 = haversine_km user_lat user_lon p.1.latitude p.1.longitude
          ∧ p.2 ≤ max_km := by
  simp only [retained, withDistances, List.mem_filter, List.mem_map, decide_eq_true_eq]
  constructor
  · rintro ⟨⟨row, hrow, rfl⟩, hle⟩
    exact ⟨hrow, rfl, hle⟩
  · rintro ⟨h1, h2, h3⟩
    exact ⟨⟨p.1, h1, by rw [← h2]⟩, h3⟩

/-- Rounding to two decimals is monotone. -/
theorem round2_mono {x y : ℝ} (h : x ≤ y) : round2 x ≤ round2 y := by
  simp only [round2]
  have hr : round (x * 100) ≤ round (y * 100) := by
    rw [round_eq, round_eq]
    exact Int.floor_mono (by linarith)
  have h100 : (0 : ℝ) < 100 := by norm_num
  exact (div_le_div_iff_of_pos_right h100).mpr (by exact_mod_cast hr)

/-- The `head` of a data frame is a sublist of it, for every integer
argument. -/
theorem pandasHead_sublist (n : ℤ) (l : List α) : (pandasHead n l).Sublist l := by
  unfold pandasHead
  split
  · exact List.take_sublist _ _
  · exact List.take_sublist _ _

/-- For a nonnegative argument, `head` is `take`. -/
theorem pandasHead_of_nonneg {n : ℤ} (h : 0 ≤ n) (l : List α) :
    pandasHead n l = l.take n.toNat := if_pos h

/-- Membership is invariant under the sort. -/
theorem mem_sortedRetained {user_lat user_lon max_km : ℝ} {df : List CinemaRecord}
    {p : CinemaRecord × ℝ} :
    p ∈ sortedRetained user_lat user_lon df max_km
      ↔ p ∈ retained user_lat user_lon df max_km :=
  (sortedRetained_perm user_lat user_lon max_km df).mem_iff

/-- Unfolding of `load_data` as filter-then-convert. -/
theorem load_data_eq (rows : List RawRow) :
    load_data rows
      = (rows.filter fun r => r.latitude.isSome && r.longitude.isSome).map
          fun r => ⟨r.name, r.city, r.brand, r.operator, r.latitude.getD 0, r.longitude.getD 0⟩ := by
  induction rows with
  | nil => rfl
  | cons r rows ih =>
    rcases hla : r.latitude with _ | la <;> rcases hlo : r.longitude with _ | lo <;>
      simp [load_data, List.filterMap_cons, List.filter_cons, hla, hlo] <;>
      simpa [load_data] using ih

/-! ## Claim theorems -/

/-- Claim C2: for every input postcode, geocoding yields exactly one of the
four outcomes: the empty-input error when the normalized string is empty
(independently of the network oracle, so no outbound call is consulted);
the lookup-failed error when the HTTP status is not 200; the
invalid-postcode error when the HTTP status is 200 but the payload status
field is not 200 or the result payload is null or missing; otherwise the
latitude and longitude extracted from the result payload. -/
theorem geocode_postcode_outcomes (p : String) (net : String → NetResponse) :
    (cleanedPostcode p = "" →
      ∀ net2 : String → NetResponse,
        geocode_postcode p net2 = (none, none, some "Please enter a postcode."))
  ∧ (cleanedPostcode p ≠ "" → (net (lookupUrl p)).status_code ≠ 200 →
      geocode_postcode p net = (none, none, some "Postcode lookup failed. Try again."))
  ∧ (cleanedPostcode p ≠ "" → (net (lookupUrl p)).status_code = 200 →
      ((net (lookupUrl p)).jsonStatus ≠ some 200 ∨ (net (lookupUrl p)).jsonResult = none) →
      geocode_postcode p net = (none, none, some "Invalid postcode. Please try a valid UK postcode."))
  ∧ (∀ res : GeoResult, cleanedPostcode p ≠ "" → (net (lookupUrl p)).status_code = 200 →
      (net (lookupUrl p)).jsonStatus = some 200 → (net (lookupUrl p)).jsonResult = some res →
      geocode_postcode p net = (some res.latitude, some res.longitude, none)) := by
  unfold geocode_postcode lookupUrl
  refine ⟨?_, ?_, ?_, ?_⟩
  · intro h net2
    simp [h]
  · intro h1 h2
    simp [h1, h2]
  · intro h1 h2 h3
    rw [if_neg h1, if_neg (by simp [h2])]
    split
    · rename_i s r heq
      exfalso
      rcases h3 with h | h
      · exact h r
      · simp [heq] at h
    · rfl
  · intro res h1 h2 h3 h4
    rw [if_neg h1, if_neg (by simp [h2]), h3, h4]
    rfl

/-- Witness for C2: the success path at a concrete postcode and network. -/
theorem geocode_postcode_outcomes_witness :
    cleanedPostcode "SW1A 1AA" ≠ ""
  ∧ (okNet (lookupUrl "SW1A 1AA")).status_code = 200
  ∧ (okNet (lookupUrl "SW1A 1AA")).jsonStatus = some 200
  ∧ (okNet (lookupUrl "SW1A 1AA")).jsonResult = some ⟨51, -1⟩
  ∧ geocode_postcode "SW1A 1AA" okNet = (some (51 : ℝ), some (-1 : ℝ), none) :=
  ⟨by decide, rfl, rfl, rfl,
    (geocode_postcode_outcomes "SW1A 1AA" okNet).2.2.2 ⟨51, -1⟩ (by decide) rfl rfl rfl⟩

/-- Claim C9: the normalization trims surrounding whitespace, uppercases
and removes all internal spaces (so the cleaned string never contains a
space), and the raw input `"sw1a 1aa "` and the already-normalized
`"SW1A1AA"` produce the identical URL segment `"SW1A1AA"`. -/
theorem cleaned_postcode_url_segment :
    (∀ p : String, ((cleanedPostcode p).data.all fun c => c != ' ') = true)
  ∧ cleanedPostcode "sw1a 1aa " = "SW1A1AA"
  ∧ cleanedPostcode "SW1A1AA" = "SW1A1AA"
  ∧ lookupUrl "sw1a 1aa " = lookupUrl "SW1A1AA"
  ∧ lookupUrl "SW1A1AA" = "https://api.postcodes.io/postcodes/SW1A1AA" := by
  refine ⟨?_, by decide, by decide, by decide, by decide⟩
  intro p
  simp only [cleanedPostcode, pyRemoveSpaces, List.all_eq_true, List.mem_filter]
  intro c hc
  exact hc.2

/-- Claim C10: the geocoder's triple satisfies the invariant that the error
component is `none` exactly when both coordinates are present; on every
error path both coordinates are `none`. -/
theorem geocode_error_iff_no_coords (p : String) (net : String → NetResponse) :
    ((geocode_postcode p net).2.2 = none
        ∧ (geocode_postcode p net).1.isSome = true
        ∧ (geocode_postcode p net).2.1.isSome = true)
  ∨ ((geocode_postcode p net).2.2.isSome = true
        ∧ (geocode_postcode p net).1 = none
        ∧ (geocode_postcode p net).2.1 = none) := by
  simp only [geocode_postcode]
  split
  · right; simp
  · split
    · right; simp
    · split
      · left; simp
      · right; simp

/-- Claim C6: for valid geographic points, the haversine distance is
symmetric, and the distance from a point to itself is zero. -/
theorem haversine_symm_self (lat1 lon1 lat2 lon2 : ℝ)
    (_h1 : -90 ≤ lat1) (_h2 : lat1 ≤ 90) (_h3 : -180 ≤ lon1) (_h4 : lon1 ≤ 180)
    (_h5 : -90 ≤ lat2) (_h6 : lat2 ≤ 90) (_h7 : -180 ≤ lon2) (_h8 : lon2 ≤ 180) :
    haversine_km lat1 lon1 lat2 lon2 = haversine_km lat2 lon2 lat1 lon1
  ∧ haversine_km lat1 lon1 lat1 lon1 = 0 :=
  ⟨haversine_comm lat1 lon1 lat2 lon2, haversine_self lat1 lon1⟩

/-- Witness for C6 at the concrete points `(1, 2)` and `(3, 4)`. -/
theorem haversine_symm_self_witness :
    haversine_km 1 2 3 4 = haversine_km 3 4 1 2 ∧ haversine_km 1 2 1 2 = 0 :=
  haversine_symm_self 1 2 3 4 (by norm_num) (by norm_num) (by norm_num) (by norm_num)
    (by norm_num) (by norm_num) (by norm_num) (by norm_num)

/-- Claim C8: the rounding of distances to two decimal places happens only
after filtering, sorting and truncation: the ranked output is the rounding
image of the unrounded pipeline, its records are those selected by the
unrounded pipeline, and the unrounded pipeline is already ordered and
filtered by the unrounded distances. -/
theorem rank_rounds_after_selection (user_lat user_lon max_km : ℝ)
    (df : List CinemaRecord) (n : ℤ) :
    rank user_lat user_lon df max_km n
        = ((rankUnrounded user_lat user_lon df max_km n).map fun p => (p.1, round2 p.2))
  ∧ (rank user_lat user_lon df max_km n).map Prod.fst
        = (rankUnrounded user_lat user_lon df max_km n).map Prod.fst
  ∧ List.Pairwise (fun p q : CinemaRecord × ℝ => p.2 ≤ q.2)
        (rankUnrounded user_lat user_lon df max_km n)
  ∧ ((rankUnrounded user_lat user_lon df max_km n).Forall fun p => p.2 ≤ max_km) := by
  refine ⟨rfl, ?_, ?_, ?_⟩
  · simp [rank, List.map_map]
  · exact (sortedRetained_pairwise user_lat user_lon max_km df).sublist
      (pandasHead_sublist n _)
  · rw [List.forall_iff_forall_mem]
    intro p hp
    have hmem : p ∈ sortedRetained user_lat user_lon df max_km :=
      (pandasHead_sublist n _).mem hp
    have hret : p ∈ retained user_lat user_lon df max_km :=
      (sortedRetained_perm user_lat user_lon max_km df).mem_iff.mp hmem
    exact (mem_retained.mp hret).2.2

/-- Claim C3: the loader returns exactly the rows with present numeric
coordinates, in order, converted to records; it drops exactly the
defective rows (it is a total function, so no error is possible), and
every returned record's coordinates come from present numeric cells of
some input row. -/
theorem load_data_drops_bad_rows (rows : List RawRow) :
    load_data rows
        = ((rows.filter fun r => r.latitude.isSome && r.longitude.isSome).map
            fun r => ⟨r.name, r.city, r.brand, r.operator,
              r.latitude.getD 0, r.longitude.getD 0⟩)
  ∧ (load_data rows).length
        = (rows.filter fun r => r.latitude.isSome && r.longitude.isSome).length
  ∧ ((load_data rows).Forall fun c =>
        ∃ r, r ∈ rows ∧ r.latitude = some c.latitude ∧ r.longitude = some c.longitude) := by
  refine ⟨load_data_eq rows, ?_, ?_⟩
  · rw [load_data_eq rows, List.length_map]
  · rw [List.forall_iff_forall_mem]
    intro c hc
    rw [load_data_eq rows] at hc
    obtain ⟨r, hr, rfl⟩ := List.mem_map.mp hc
    obtain ⟨hrows, hsome⟩ := List.mem_filter.mp hr
    obtain ⟨hla, hlo⟩ := Bool.and_eq_true_iff.mp hsome
    refine ⟨r, hrows, ?_, ?_⟩
    · rcases hx : r.latitude with _ | la
      · rw [hx] at hla; simp at hla
      · simp [hx]
    · rcases hx : r.longitude with _ | lo
      · rw [hx] at hlo; simp at hlo
      · simp [hx]

/-- Claim C1: for a positive limit, the ranking returns as many records as
the limit allows among those within `max_km` (so with 12 records in radius
and limit 5 it returns exactly 5); its output is sorted by distance
ascending; every returned record is a dataset record within `max_km`
carrying its rounded distance; every dataset record within `max_km` enters
the sorted retained list; and everything the truncation returns is at
least as close as everything it cuts off (the returned records are the
`limit` closest). -/
theorem rank_returns_closest_within_radius (user_lat user_lon max_km : ℝ)
    (df : List CinemaRecord) (n : ℤ) (hn : 0 < n) :
    (rank user_lat user_lon df max_km n).length
        = min n.toNat (retained user_lat user_lon df max_km).length
  ∧ List.Sorted (· ≤ ·) ((rank user_lat user_lon df max_km n).map Prod.snd)
  ∧ (∀ p ∈ rank user_lat user_lon df max_km n,
        p.1 ∈ df ∧ haversine_km user_lat user_lon p.1.latitude p.1.longitude ≤ max_km
          ∧ p.2 = round2 (haversine_km user_lat user_lon p.1.latitude p.1.longitude))
  ∧ (∀ row ∈ df, haversine_km user_lat user_lon row.latitude row.longitude ≤ max_km →
        (row, haversine_km user_lat user_lon row.latitude row.longitude)
          ∈ sortedRetained user_lat user_lon df max_km)
  ∧ (∀ p ∈ rankUnrounded user_lat user_lon df max_km n,
        ∀ q ∈ (sortedRetained user_lat user_lon df max_km).drop n.toNat, p.2 ≤ q.2) := by
  have hhead : rankUnrounded user_lat user_lon df max_km n
      = (sortedRetained user_lat user_lon df max_km).take n.toNat := by
    rw [rankUnrounded, pandasHead_of_nonneg hn.le]
  refine ⟨?_, ?_, ?_, ?_, ?_⟩
  · rw [rank, List.length_map, hhead, List.length_take, length_sortedRetained]
  · rw [rank, hhead, List.map_map]
    have hp : List.Pairwise (fun p q : CinemaRecord × ℝ => p.2 ≤ q.2)
        ((sortedRetained user_lat user_lon df max_km).take n.toNat) :=
      (sortedRetained_pairwise _ _ _ _).sublist (List.take_sublist _ _)
    rw [List.Sorted, List.pairwise_map]
    exact hp.imp fun h => round2_mono h
  · intro p hp
    rw [rank] at hp
    obtain ⟨q, hq, rfl⟩ := List.mem_map.mp hp
    have hq2 : q ∈ retained user_lat user_lon df max_km := by
      rw [hhead] at hq
      exact mem_sortedRetained.mp ((List.take_sublist _ _).mem hq)
    obtain ⟨hdf, hdist, hle⟩ := mem_retained.mp hq2
    rw [hdist] at hle
    exact ⟨hdf, hle, by rw [hdist]⟩
  · intro row hrow hle
    exact mem_sortedRetained.mpr (mem_retained.mpr ⟨hrow, rfl, hle⟩)
  · intro p hp q hq
    have hsplit := sortedRetained_pairwise user_lat user_lon max_km df
    rw [← List.take_append_drop n.toNat (sortedRetained user_lat user_lon df max_km)]
      at hsplit
    rw [hhead] at hp
    exact (List.pairwise_append.mp hsplit).2.2 p hp q hq

/-- Witness for C1 at a one-record dataset and limit 5. -/
theorem rank_returns_closest_within_radius_witness :
    (rank 0 0 [sampleCinema] 10 5).length
        = min (5 : ℤ).toNat (retained 0 0 [sampleCinema] 10).length
  ∧ List.Sorted (· ≤ ·) ((rank 0 0 [sampleCinema] 10 5).map Prod.snd)
  ∧ (∀ p ∈ rank 0 0 [sampleCinema] 10 5,
        p.1 ∈ [sampleCinema] ∧ haversine_km 0 0 p.1.latitude p.1.longitude ≤ 10
          ∧ p.2 = round2 (haversine_km 0 0 p.1.latitude p.1.longitude))
  ∧ (∀ row ∈ [sampleCinema], haversine_km 0 0 row.latitude row.longitude ≤ 10 →
        (row, haversine_km 0 0 row.latitude row.longitude)
          ∈ sortedRetained 0 0 [sampleCinema] 10)
  ∧ (∀ p ∈ rankUnrounded 0 0 [sampleCinema] 10 5,
        ∀ q ∈ (sortedRetained 0 0 [sampleCinema] 10).drop (5 : ℤ).toNat, p.2 ≤ q.2) :=
  rank_returns_closest_within_radius 0 0 10 [sampleCinema] 5 (by norm_num)

/-- Claim C5 (amended): ranking an empty dataset yields an empty result
without error, ranking with no record in radius yields an empty result,
and ranking with limit exactly 0 yields an empty result; but for a
negative limit, `head(n)` keeps all but the last `|n|` rows (pandas slice
semantics), so the result has `max(0, retained - |n|)` entries rather than
none. -/
theorem rank_edge_cases (user_lat user_lon max_km : ℝ) (n : ℤ) :
    rank user_lat user_lon [] max_km n = []
  ∧ (∀ df, retained user_lat user_lon df max_km = [] →
      rank user_lat user_lon df max_km n = [])
  ∧ (∀ df, rank user_lat user_lon df max_km 0 = [])
  ∧ (∀ df, ∀ m : ℤ, m < 0 → (rank user_lat user_lon df max_km m).length
        = (retained user_lat user_lon df max_km).length - (-m).toNat) := by
  refine ⟨?_, ?_, ?_, ?_⟩
  · have hret : retained user_lat user_lon [] max_km = [] := rfl
    simp [rank, rankUnrounded, sortedRetained, hret, pandasHead]
  · intro df h
    simp [rank, rankUnrounded, sortedRetained, h, pandasHead]
  · intro df
    simp [rank, rankUnrounded, pandasHead]
  · intro df m hm
    rw [rank, List.length_map, rankUnrounded]
    simp only [pandasHead]
    rw [if_neg (by omega), List.length_take, length_sortedRetained]
    omega

/-- Counterexample for C5 as stated: with two records in radius, a limit
of `-1` produces a nonempty result (one record), not an empty one. -/
theorem rank_negative_limit_not_empty :
    rank 0 0 [sampleCinema, sampleCinema2] 10 (-1) ≠ [] := by
  have hretlen : (retained 0 0 [sampleCinema, sampleCinema2] 10).length = 2 := by
    rw [retained, withDistances]
    norm_num [sampleCinema, sampleCinema2, List.filter_cons, haversine_self]
  have h2 : (rank 0 0 [sampleCinema, sampleCinema2] 10 (-1)).length = 1 := by
    rw [rank, List.length_map, rankUnrounded]
    simp only [pandasHead]
    rw [if_neg (by norm_num), List.length_take, length_sortedRetained, hretlen]
    omega
  intro h
  rw [h] at h2
  simp at h2

/-- Claim C7: enlarging the radius only enlarges the (untruncated) result:
with the limit set to the dataset size, every ranked record at radius `r1`
is also a ranked record at radius `r2 > r1`. -/
theorem rank_radius_monotone (user_lat user_lon r1 r2 : ℝ) (df : List CinemaRecord)
    (h : r1 < r2) :
    rank user_lat user_lon df r1 (df.length : ℤ)
      ⊆ rank user_lat user_lon df r2 (df.length : ℤ) := by
  have hall : ∀ r : ℝ, rankUnrounded user_lat user_lon df r (df.length : ℤ)
      = sortedRetained user_lat user_lon df r := by
    intro r
    have hlen : (sortedRetained user_lat user_lon df r).length
        ≤ ((df.length : ℤ)).toNat := by
      rw [length_sortedRetained, Int.toNat_natCast]
      calc (retained user_lat user_lon df r).length
          ≤ (withDistances user_lat user_lon df).length := List.length_filter_le _ _
        _ = df.length := by rw [withDistances, List.length_map]
    rw [rankUnrounded, pandasHead_of_nonneg (Int.natCast_nonneg _),
      List.take_of_length_le hlen]
  intro x hx
  rw [rank, hall r1] at hx
  rw [rank, hall r2]
  obtain ⟨q, hq, rfl⟩ := List.mem_map.mp hx
  refine List.mem_map.mpr ⟨q, ?_, rfl⟩
  have hq1 := mem_retained.mp (mem_sortedRetained.mp hq)
  exact mem_sortedRetained.mpr (mem_retained.mpr ⟨hq1.1, hq1.2.1, le_trans hq1.2.2 h.le⟩)

/-- Witness for C7 with radii 1 and 2 on a one-record dataset. -/
theorem rank_radius_monotone_witness :
    rank 0 0 [sampleCinema] 1 ([sampleCinema].length : ℤ)
      ⊆ rank 0 0 [sampleCinema] 2 ([sampleCinema].length : ℤ) :=
  rank_radius_monotone 0 0 1 2 [sampleCinema] (by norm_num)

end CinemaFinder
